import Mathlib

/-!
Verification development for the cloudflaremon repository.

The repository consists of client-side Python scripts that call the HTTP
interface of a heartbeat-monitoring Cloudflare Worker:

  * heartbeat-clients/heartbeat-client.py and slim/agent/heartbeat-client.py
    (identical request logic): single and batch heartbeat senders;
  * examples/heartbeat-client.py: a single-service heartbeat sender that also
    gathers host metadata;
  * heartbeat-clients/test-external-alert.py: a test harness for the
    /api/alert endpoint;
  * heartbeat-clients/test-notification.py: a test client for
    /api/test-notification;
  * scripts/generate-api-keys.py: an offline key-generation utility.

Each script's observable behaviour (the request it builds, the exit status it
returns for each possible HTTP outcome, the text structure it emits) is
embedded below as executable Lean functions, translated line by line from the
Python source.  HTTP outcomes (network errors, timeouts, responses with a
status code and an optionally-JSON body) are made explicit as inductive types,
so each client becomes a total function from outcome to behaviour.
-/

/-- A JSON-like value, sufficient for the request and response bodies the
clients build and consume.  Numbers are modelled as a decimal mantissa and a
power-of-ten exponent (`num m e` denotes `m * 10^e`), which represents the few
numeric literals in the test payloads exactly. -/
inductive JVal where
  | str : String → JVal
  | num : Int → Int → JVal
  | arr : List JVal → JVal
  | obj : List (String × JVal) → JVal
  deriving Repr

namespace JVal

/-- Look a key up in a JSON object (first occurrence), as Python `d[k]` /
`d.get(k)` on a parsed JSON object. -/
def lookup (j : JVal) (k : String) : Option JVal :=
  match j with
  | .obj kvs => (kvs.find? (fun kv => kv.1 == k)).map (·.2)
  | _ => none

/-- Whether a JSON object carries a given key. -/
def hasKey (j : JVal) (k : String) : Bool :=
  match j with
  | .obj kvs => kvs.any (fun kv => kv.1 == k)
  | _ => false

/-- The list of keys of a JSON object, in order. -/
def keys (j : JVal) : List String :=
  match j with
  | .obj kvs => kvs.map (·.1)
  | _ => []

/-- The elements of a JSON array. -/
def elems (j : JVal) : List JVal :=
  match j with
  | .arr xs => xs
  | _ => []

end JVal

section HeartbeatClients
/-!
heartbeat-clients/heartbeat-client.py and slim/agent/heartbeat-client.py.
The two files' configuration constants, `send_heartbeat_single` and
`send_heartbeat_batch` bodies are textually identical (only `WORKER_URL`
differs), so one embedding covers both.
-/

/-- Module constant `SERVICE_ID` of heartbeat-client.py. -/
def SERVICE_ID : String := "service-1"

/-- Module constant `API_KEY` of heartbeat-client.py. -/
def API_KEY : String := "your-secret-key-1"

/-- Module constant `SERVICE_IDS` of heartbeat-client.py (batch, shared key). -/
def SERVICE_IDS : List String := ["service-1", "service-2", "service-3"]

/-- Module constant `SERVICES_WITH_KEYS` of heartbeat-client.py (batch,
per-service keys), as (serviceId, token) pairs. -/
def SERVICES_WITH_KEYS : List (String × String) :=
  [("service-1", "key-for-service-1"),
   ("service-2", "key-for-service-2"),
   ("service-3", "key-for-service-3")]

/-- An outbound HTTP POST as the clients assemble it: a JSON payload and a
header list. -/
structure HttpRequest where
  payload : JVal
  headers : List (String × String)
  deriving Repr

/-- The request built by `send_heartbeat_single` of heartbeat-client.py:
payload `\x7b"serviceId": SERVICE_ID\x7d` and headers Content-Type plus
`Authorization: Bearer <API_KEY>`.  The configuration constants are passed as
arguments so the embedding covers every configuration of the script. -/
def send_heartbeat_single_request (serviceId apiKey : String) : HttpRequest :=
  { payload := .obj [("serviceId", .str serviceId)]
    headers := [("Content-Type", "application/json"),
                ("Authorization", "Bearer " ++ apiKey)] }

/-- The request built by `send_heartbeat_batch` of heartbeat-client.py.  With
`BATCH_SHARED_KEY = True` the payload is `\x7b"services": [ids...]\x7d` and an
`Authorization: Bearer <API_KEY>` header is added; otherwise the payload is
`\x7b"services": [\x7b"serviceId", "token"\x7d...]\x7d` and the headers stay at
Content-Type only. -/
def send_heartbeat_batch_request (batchSharedKey : Bool) (apiKey : String)
    (serviceIds : List String) (servicesWithKeys : List (String × String)) :
    HttpRequest :=
  if batchSharedKey then
    { payload := .obj [("services", .arr (serviceIds.map .str))]
      headers := [("Content-Type", "application/json"),
                  ("Authorization", "Bearer " ++ apiKey)] }
  else
    { payload := .obj [("services", .arr (servicesWithKeys.map fun p =>
        .obj [("serviceId", .str p.1), ("token", .str p.2)]))]
      headers := [("Content-Type", "application/json")] }

/-- One entry of a batch response's `results` array:
`\x7bserviceId, success, error?\x7d`. -/
structure ServiceResult where
  serviceId : String
  success : Bool
  error : Option String
  deriving Repr, DecidableEq

/-- The JSON body of a heartbeat response, as the clients read it:
`message` and an optional `results` array. -/
structure HeartbeatResponseBody where
  message : Option String
  results : Option (List ServiceResult)
  deriving Repr, DecidableEq

/-- The outcome of a `requests.post` call: either an exception from the
`requests` library (connection error, timeout — all are subclasses of
`requests.exceptions.RequestException`) or a response with a status code and
a body. -/
inductive HttpOutcome where
  | requestError
  | response (status : Nat) (body : HeartbeatResponseBody)
  deriving Repr, DecidableEq

/-- Exit status of `send_heartbeat_single`: 0 when the response status is 200,
1 on any other status and 1 on a request exception (which the `except` clause
catches). -/
def send_heartbeat_single_exit : HttpOutcome → Nat
  | .requestError => 1
  | .response status _ => if status == 200 then 0 else 1

/-- One per-service line printed by `send_heartbeat_batch` while reporting a
response body's `results`.  On a 200 response each result prints a check or
cross mark and the serviceId; on a 207 response a successful result prints the
serviceId and a failed one prints the serviceId with the `error` field. -/
inductive BatchPrint where
  | line200 (success : Bool) (serviceId : String)
  | line207ok (serviceId : String)
  | line207fail (serviceId : String) (error : Option String)
  deriving Repr, DecidableEq

/-- Exit status and per-service report lines of `send_heartbeat_batch`:
200 prints each result's mark and serviceId and returns 0; 207 prints each
result (with the error reason for failed ones) and returns 0; any other
status returns 1; a request exception is caught and returns 1. -/
def send_heartbeat_batch_run : HttpOutcome → Nat × List BatchPrint
  | .requestError => (1, [])
  | .response status body =>
    if status == 200 then
      (0, (body.results.getD []).map fun r => .line200 r.success r.serviceId)
    else if status == 207 then
      (0, (body.results.getD []).map fun r =>
        if r.success then .line207ok r.serviceId
        else .line207fail r.serviceId r.error)
    else
      (1, [])

end HeartbeatClients

section ExamplesClient
/-!
examples/heartbeat-client.py: `send_heartbeat`.
-/

/-- The payload built by `send_heartbeat` of examples/heartbeat-client.py:
serviceId, a literal `status: "up"`, metadata gathered from the host
(hostname and timestamp), and a free-text message.  Hostname and timestamp
are runtime inputs and appear as parameters. -/
def examples_send_heartbeat_payload (serviceId hostname timestamp : String) :
    JVal :=
  .obj [("serviceId", .str serviceId),
        ("status", .str "up"),
        ("metadata", .obj [("hostname", .str hostname),
                           ("timestamp", .str timestamp)]),
        ("message", .str ("Heartbeat from " ++ hostname))]

end ExamplesClient

section AlertTestHarness
/-!
heartbeat-clients/test-external-alert.py: `API_KEY`, `send_alert`, `main`.
-/

/-- Module constant `API_KEY` of test-external-alert.py:
`sys.argv[2] if len(sys.argv) > 2 else None`.  `argv` is Python's `sys.argv`,
whose element 0 is the program name. -/
def alert_api_key (argv : List String) : Option String :=
  if argv.length > 2 then argv.get? 2 else none

/-- Python truthiness of an optional string: `None` and the empty string are
falsy, every other string truthy. -/
def pyTruthy : Option String → Bool
  | none => false
  | some s => s != ""

/-- The header list assembled inside `send_alert`: Content-Type always, and
`Authorization: Bearer <API_KEY>` appended only under `if API_KEY:`. -/
def send_alert_headers (apiKey : Option String) : List (String × String) :=
  let base := [("Content-Type", "application/json")]
  if pyTruthy apiKey then
    base ++ [("Authorization", "Bearer " ++ apiKey.getD "")]
  else
    base

/-- Outcome of one `send_alert` POST: a `requests` exception, or a response
whose body either parses as JSON (`some body`) or does not (`none`, making
`response.json()` raise a JSON decode error). -/
inductive AlertOutcome where
  | requestError
  | response (status : Nat) (body : Option JVal)
  deriving Repr

/-- What one `send_alert` call reports after its try/except: the parsed body
with a success or failure mark, or one of the two caught error messages. -/
inductive SendAlertReport where
  | success (body : JVal)
  | failedStatus (status : Nat) (body : JVal)
  | requestFailed
  | invalidJson
  deriving Repr

/-- A Python exception escaping a function; `send_alert` must never produce
one, which the embedding makes explicit by returning `Except`. -/
inductive PyError where
  | uncaught
  deriving Repr, DecidableEq

/-- `send_alert` of test-external-alert.py as a total function of the HTTP
outcome.  A `RequestException` from `requests.post` is caught by the first
`except` clause; a body that fails to parse raises a JSON decode error from
`response.json()`, caught by the second clause (in requests >= 2.27 that
exception is also a `RequestException` and is caught by the first clause —
either way it is caught); otherwise the parsed body is printed with a success
mark for status 200 and a failure mark for any other status.  No branch lets
an exception escape. -/
def send_alert (o : AlertOutcome) : Except PyError SendAlertReport :=
  match o with
  | .requestError => .ok .requestFailed
  | .response _ none => .ok .invalidJson
  | .response status (some body) =>
    if status == 200 then .ok (.success body)
    else .ok (.failedStatus status body)

/-- Test 3 of the harness: the Alertmanager-format firing payload, transcribed
field by field from test-external-alert.py. -/
def alertmanagerFiringPayload : JVal :=
  .obj [("receiver", .str "cloudflare-monitor"),
        ("status", .str "firing"),
        ("alerts", .arr [
          .obj [("status", .str "firing"),
                ("labels", .obj [("alertname", .str "HighCPU"),
                                 ("severity", .str "warning"),
                                 ("instance", .str "server-01"),
                                 ("job", .str "node-exporter")]),
                ("annotations", .obj [
                   ("summary", .str "High CPU usage detected"),
                   ("description", .str "CPU usage is above 80% on server-01")]),
                ("startsAt", .str "2025-11-06T10:30:00Z"),
                ("generatorURL", .str "http://prometheus:9090/graph")]]),
        ("groupLabels", .obj [("alertname", .str "HighCPU")])]

/-- Test 4 of the harness: the Alertmanager-format resolved payload. -/
def alertmanagerResolvedPayload : JVal :=
  .obj [("receiver", .str "cloudflare-monitor"),
        ("status", .str "resolved"),
        ("alerts", .arr [
          .obj [("status", .str "resolved"),
                ("labels", .obj [("alertname", .str "HighCPU"),
                                 ("severity", .str "warning"),
                                 ("instance", .str "server-01")]),
                ("annotations", .obj [
                   ("summary", .str "High CPU usage detected"),
                   ("description", .str "CPU usage has returned to normal")]),
                ("startsAt", .str "2025-11-06T10:30:00Z"),
                ("endsAt", .str "2025-11-06T10:45:00Z")]])]

/-- Test 5 of the harness: Alertmanager format with three alerts. -/
def alertmanagerMultiplePayload : JVal :=
  .obj [("receiver", .str "cloudflare-monitor"),
        ("status", .str "firing"),
        ("alerts", .arr [
          .obj [("status", .str "firing"),
                ("labels", .obj [("alertname", .str "HighMemory"),
                                 ("severity", .str "critical"),
                                 ("instance", .str "server-01")]),
                ("annotations", .obj [
                   ("summary", .str "Memory usage critical"),
                   ("description", .str "Memory usage is above 95%")])],
          .obj [("status", .str "firing"),
                ("labels", .obj [("alertname", .str "HighMemory"),
                                 ("severity", .str "critical"),
                                 ("instance", .str "server-02")]),
                ("annotations", .obj [
                   ("summary", .str "Memory usage critical"),
                   ("description", .str "Memory usage is above 95%")])],
          .obj [("status", .str "resolved"),
                ("labels", .obj [("alertname", .str "HighMemory"),
                                 ("severity", .str "critical"),
                                 ("instance", .str "server-03")]),
                ("annotations", .obj [
                   ("summary", .str "Memory usage critical"),
                   ("description", .str "Memory usage returned to normal")])]])]

/-- Test 6 of the harness: the Grafana-format payload (95.5 is `num 955 (-1)`). -/
def grafanaPayload : JVal :=
  .obj [("dashboardId", .num 1 0),
        ("evalMatches", .arr [
          .obj [("value", .num 955 (-1)),
                ("metric", .str "memory_usage_percent"),
                ("tags", .obj [("host", .str "web-server-01")])]]),
        ("message", .str "Memory usage is critically high"),
        ("orgId", .num 1 0),
        ("panelId", .num 2 0),
        ("ruleId", .num 1 0),
        ("ruleName", .str "High Memory Alert"),
        ("ruleUrl", .str "https://grafana.example.com/alerting/1"),
        ("state", .str "alerting"),
        ("tags", .obj [("severity", .str "critical")]),
        ("title", .str "High Memory Usage on web-server-01")]

/-- The nine (name, payload) pairs `main` of test-external-alert.py posts, in
program order. -/
def alertHarnessTests : List (String × JVal) :=
  [("Test 1: Generic Format (Warning)",
    .obj [("title", .str "Test Generic Alert"),
          ("message", .str "This is a test alert using the generic format"),
          ("severity", .str "warning"),
          ("source", .str "test-script"),
          ("labels", .obj [("environment", .str "test"),
                           ("script", .str "test-external-alert.py")])]),
   ("Test 2: Critical Severity",
    .obj [("title", .str "Critical System Alert"),
          ("message", .str "A critical issue has been detected"),
          ("severity", .str "critical"),
          ("source", .str "test-script")]),
   ("Test 3: Alertmanager Format (Firing)", alertmanagerFiringPayload),
   ("Test 4: Alertmanager Format (Resolved)", alertmanagerResolvedPayload),
   ("Test 5: Alertmanager Format (Multiple Alerts)", alertmanagerMultiplePayload),
   ("Test 6: Grafana Format", grafanaPayload),
   ("Test 7: Info Severity",
    .obj [("title", .str "Deployment Completed"),
          ("message", .str "New version v2.5.0 deployed successfully"),
          ("severity", .str "info"),
          ("source", .str "ci-cd"),
          ("labels", .obj [("version", .str "v2.5.0"),
                           ("environment", .str "production")])]),
   ("Test 8: Specific Channels (Discord + Slack only)",
    .obj [("title", .str "Channel Routing Test"),
          ("message", .str "This alert should only go to Discord and Slack"),
          ("severity", .str "warning"),
          ("source", .str "test-script"),
          ("channels", .arr [.str "discord", .str "slack"])]),
   ("Test 9: Single Channel (PagerDuty only)",
    .obj [("title", .str "Critical Production Issue"),
          ("message", .str "This alert should only trigger PagerDuty"),
          ("severity", .str "critical"),
          ("source", .str "test-script"),
          ("channels", .arr [.str "pagerduty"])])]

/-- `main` of test-external-alert.py: posts every harness test in order,
threading each post's outcome through `send_alert`; an exception escaping any
`send_alert` call would abort the remaining tests (the `Except` monad stops at
the first `.error`).  The script ends without calling `sys.exit`, so a run in
which no exception escapes terminates the process with status 0.  Returns the
per-test reports and the process exit status. -/
def alert_harness_main (outcomes : Nat -> AlertOutcome) :
    Except PyError (List SendAlertReport × Nat) := do
  let reports <- (List.range alertHarnessTests.length).mapM
    fun i => send_alert (outcomes i)
  pure (reports, 0)

end AlertTestHarness

section TestNotification
/-!
heartbeat-clients/test-notification.py: `test_notification`.
-/

/-- The body `test_notification` posts to /api/test-notification:
`\x7bchannelType, eventType\x7d` and nothing else. -/
def test_notification_payload (channelType eventType : String) : JVal :=
  .obj [("channelType", .str channelType), ("eventType", .str eventType)]

/-- The response body of /api/test-notification as the script reads it:
a `success` flag (its Python truthiness) and an optional message. -/
structure NotificationBody where
  success : Bool
  message : Option String
  deriving Repr, DecidableEq

/-- Outcome of the `requests.post` inside `test_notification`: a timeout, any
other `requests` exception, or a response whose body either parses as JSON or
does not. -/
inductive NotificationOutcome where
  | timeoutError
  | connectionError
  | response (status : Nat) (body : Option NotificationBody)
  deriving Repr, DecidableEq

/-- Exit status of `test_notification`: 0 exactly on a 200 response whose
parsed body has a truthy `success`; any other response (including a 200 with
falsy `success`) returns 1; a timeout, a connection error, and a body that
fails to parse as JSON are each caught by an `except` clause and return 1. -/
def test_notification_exit : NotificationOutcome → Nat
  | .timeoutError => 1
  | .connectionError => 1
  | .response _ none => 1
  | .response status (some data) =>
    if status == 200 && data.success then 0 else 1

end TestNotification

section AlertNormalizerModel
/-!
The server-side AlertNormalizer is not part of the repository (only clients
are under source control); its Alertmanager branch is modelled from the
specification to settle the harness round-trip claim.
-/

/-- Canonical alert severity. -/
inductive Severity where
  | info
  | warning
  | critical
  deriving Repr, DecidableEq

/-- Modelled from the spec: the canonical Alert record produced by the
server's AlertNormalizer, which is absent from src/ (the repository holds only
clients).  Fields follow section 3 of the spec: title, message, severity,
source, labels. -/
structure CanonicalAlert where
  title : String
  message : String
  severity : Severity
  source : String
  labels : List (String × String)
  deriving Repr, DecidableEq

/-- Modelled from the spec: the Alertmanager severity mapping of the absent
server normalizer — critical to critical, warning to warning, anything else
or absent to info. -/
def mapAlertmanagerSeverity : Option JVal → Severity
  | some (.str "critical") => .critical
  | some (.str "warning") => .warning
  | _ => .info

/-- String content of a JSON value, empty for non-strings. -/
def jstr : Option JVal → String
  | some (.str s) => s
  | _ => ""

/-- String pairs of a JSON object, dropped for non-string values. -/
def jlabels : Option JVal → List (String × String)
  | some (.obj kvs) => kvs.filterMap fun kv =>
      match kv.2 with
      | .str s => some (kv.1, s)
      | _ => none
  | _ => []

/-- Modelled from the spec: the Alertmanager branch of the absent server
AlertNormalizer.  Each element of the `alerts` array becomes one canonical
Alert: title from `labels.alertname`, severity from `labels.severity` through
the mapping, message from `annotations.summary` concatenated with
`annotations.description` when both are present, source "alertmanager", and
the element's own `status` preserved in the labels. -/
def normalizeAlertmanager (body : JVal) : List CanonicalAlert :=
  (body.lookup "alerts").getD (.arr []) |>.elems.map fun a =>
    let labels := a.lookup "labels"
    let annotations := a.lookup "annotations"
    { title := jstr ((labels.getD (.obj [])).lookup "alertname")
      message :=
        jstr ((annotations.getD (.obj [])).lookup "summary") ++ " " ++
        jstr ((annotations.getD (.obj [])).lookup "description")
      severity := mapAlertmanagerSeverity ((labels.getD (.obj [])).lookup "severity")
      source := "alertmanager"
      labels := jlabels labels ++ [("status", jstr (a.lookup "status"))] }

end AlertNormalizerModel

section GenerateApiKeys
/-!
scripts/generate-api-keys.py: building the `api_keys` dict, the exact
`json.dumps(api_keys, separators) ` output, its verification through
`json.loads`, the base64 alternative, and the error paths of `main`.
-/

/-- Python dict assignment `d[k] = v`: an existing key keeps its position and
gets the new value; a new key is appended at the end. -/
def dictInsert (d : List (String × String)) (k v : String) :
    List (String × String) :=
  if d.any (fun kv => kv.1 == k) then
    d.map fun kv => if kv.1 == k then (kv.1, v) else kv
  else
    d ++ [(k, v)]

/-- The `api_keys` dict built by `main`: one `api_keys[service_id] =
generate_key()` per entry of `services`, in order.  `generate_key` draws from
`openssl rand`, so the stream of keys it returns is a parameter, consumed one
key per service. -/
def build_api_keys (services keys : List String) : List (String × String) :=
  (services.zip keys).foldl (fun d p => dictInsert d p.1 p.2) []

/-- Lower-case hexadecimal digit, as `json.dumps` emits in escapes. -/
def hexDigit (n : Nat) : Char :=
  ("0123456789abcdef".data).getD n '0'

/-- The escape `json.dumps` (default `ensure_ascii=True`) applies to one
character of the Basic Multilingual Plane: quote and backslash escaped with a
backslash, the usual short escapes for control characters, `\uXXXX` for other
control or non-ASCII characters, every other ASCII character kept as is. -/
def jsonEscapeChar (c : Char) : List Char :=
  if c == '\x22' then ['\\', '\x22']
  else if c == '\\' then ['\\', '\\']
  else if c == '\x08' then ['\\', 'b']
  else if c == '\x09' then ['\\', 't']
  else if c == '\x0a' then ['\\', 'n']
  else if c == '\x0c' then ['\\', 'f']
  else if c == '\x0d' then ['\\', 'r']
  else if c.toNat < 0x20 || c.toNat > 0x7e then
    ['\\', 'u', hexDigit (c.toNat / 4096 % 16), hexDigit (c.toNat / 256 % 16),
     hexDigit (c.toNat / 16 % 16), hexDigit (c.toNat % 16)]
  else [c]

/-- A JSON string literal: quote, escaped characters, quote. -/
def jsonQuote (s : String) : List Char :=
  '\x22' :: (s.data.map jsonEscapeChar).flatten ++ ['\x22']

/-- The members of the emitted object, joined with the `,` and `:` of
`separators=(',', ':')`. -/
def dumpsMembers : List (String × String) → List Char
  | [] => []
  | [(k, v)] => jsonQuote k ++ ':' :: jsonQuote v
  | (k, v) :: tl => jsonQuote k ++ ':' :: jsonQuote v ++ ',' :: dumpsMembers tl

/-- `json.dumps(d, separators=(',', ':'))` for the flat string-to-string
dict the script builds: a single line with no spaces. -/
def json_dumps (d : List (String × String)) : String :=
  ⟨'\x7b' :: (dumpsMembers d ++ ['\x7d'])⟩

/-- Inverse of the short escapes (`\u` escapes are left to the full parser
and rejected here; the emitted string for plain ASCII content never contains
them). -/
def unescapeChar (c : Char) : Option Char :=
  if c == '\x22' then some '\x22'
  else if c == '\\' then some '\\'
  else if c == '/' then some '/'
  else if c == 'b' then some '\x08'
  else if c == 't' then some '\x09'
  else if c == 'n' then some '\x0a'
  else if c == 'f' then some '\x0c'
  else if c == 'r' then some '\x0d'
  else none

/-- Parse the body of a JSON string literal up to its closing quote,
returning the content and the remaining characters. -/
def parseStrBody : List Char → Option (List Char × List Char)
  | [] => none
  | c :: rest =>
    if c == '\x22' then some ([], rest)
    else if c == '\\' then
      match rest with
      | [] => none
      | e :: rest2 => do
        let u ← unescapeChar e
        let (s, r) ← parseStrBody rest2
        pure (u :: s, r)
    else do
      let (s, r) ← parseStrBody rest
      pure (c :: s, r)

/-- Parse the members of a flat string-to-string JSON object up to and
including the closing brace, which must end the input; `fuel` bounds the
number of members. -/
def parseMembers : Nat → List Char → Option (List (String × String))
  | 0, _ => none
  | fuel + 1, chars =>
    match chars with
    | '\x22' :: rest => do
      let (k, r1) ← parseStrBody rest
      match r1 with
      | ':' :: '\x22' :: r2 => do
        let (v, r3) ← parseStrBody r2
        match r3 with
        | ['\x7d'] => pure [(⟨k⟩, ⟨v⟩)]
        | ',' :: r4 => do
          let tl ← parseMembers fuel r4
          pure ((⟨k⟩, ⟨v⟩) :: tl)
        | _ => none
      | _ => none
    | _ => none

/-- `json.loads` restricted to the grammar fragment `json.dumps` emits for a
flat string-to-string dict: a braced, comma-separated list of quoted
key-value pairs with no surrounding whitespace. -/
def json_loads (s : String) : Option (List (String × String)) :=
  match s.data with
  | ['\x7b', '\x7d'] => some []
  | '\x7b' :: rest => parseMembers s.length rest
  | _ => none

end GenerateApiKeys

section Base64Model
/-!
`base64.b64encode(json_string.encode()).decode()` of generate-api-keys.py:
UTF-8 encoding of the string followed by standard base64 with `=` padding,
and the decoder `base64.b64decode` needs for the round trip.
-/

/-- The UTF-8 bytes of one character. -/
def utf8Bytes (c : Char) : List Nat :=
  let n := c.toNat
  if n < 0x80 then [n]
  else if n < 0x800 then [0xc0 + n / 64, 0x80 + n % 64]
  else if n < 0x10000 then [0xe0 + n / 4096, 0x80 + n / 64 % 64, 0x80 + n % 64]
  else [0xf0 + n / 262144, 0x80 + n / 4096 % 64, 0x80 + n / 64 % 64,
        0x80 + n % 64]

/-- `s.encode()`: the UTF-8 bytes of a string. -/
def strUtf8 (s : String) : List Nat :=
  (s.data.map utf8Bytes).flatten

/-- `bytes.decode()` restricted to ASCII content: the inverse of `strUtf8` on
byte lists with every byte below 128. -/
def asciiDecodeBytes (bs : List Nat) : Option String :=
  if bs.all (· < 128) then some ⟨bs.map Char.ofNat⟩ else none

/-- The standard base64 alphabet. -/
def base64Alphabet : List Char :=
  "ABCDEFGHIJKLMNOPQRSTUVWXYZabcdefghijklmnopqrstuvwxyz0123456789+/".data

/-- The base64 character of a sextet. -/
def b64chr (n : Nat) : Char :=
  base64Alphabet.getD n 'A'

/-- The sextet of a base64 character (the alphabet's length, 64, when the
character is not in the alphabet). -/
def b64val (c : Char) : Nat :=
  base64Alphabet.indexOf c

/-- `base64.b64encode` on a byte list: groups of three bytes become four
characters; a trailing group of one or two bytes is padded with `=`. -/
def b64encodeBytes : List Nat → List Char
  | [] => []
  | [a] => [b64chr (a / 4), b64chr (a % 4 * 16), '=', '=']
  | [a, b] => [b64chr (a / 4), b64chr (a % 4 * 16 + b / 16),
               b64chr (b % 16 * 4), '=']
  | a :: b :: c :: rest =>
    b64chr (a / 4) :: b64chr (a % 4 * 16 + b / 16) ::
    b64chr (b % 16 * 4 + c / 64) :: b64chr (c % 64) :: b64encodeBytes rest

/-- `base64.b64decode` on the characters of a padded base64 string: four
characters at a time, with `=` padding allowed only in the final group. -/
def b64decodeChars : List Char → Option (List Nat)
  | [] => some []
  | c1 :: c2 :: c3 :: c4 :: rest =>
    let v1 := b64val c1
    let v2 := b64val c2
    if c3 == '=' && c4 == '=' && rest.isEmpty then
      if v1 < 64 && v2 < 64 then some [v1 * 4 + v2 / 16] else none
    else if c4 == '=' && rest.isEmpty then
      let v3 := b64val c3
      if v1 < 64 && v2 < 64 && v3 < 64 then
        some [v1 * 4 + v2 / 16, v2 % 16 * 16 + v3 / 4]
      else none
    else
      let v3 := b64val c3
      let v4 := b64val c4
      if v1 < 64 && v2 < 64 && v3 < 64 && v4 < 64 then do
        let tl ← b64decodeChars rest
        pure ((v1 * 4 + v2 / 16) :: (v2 % 16 * 16 + v3 / 4) ::
              (v3 % 4 * 64 + v4) :: tl)
      else none
  | _ => none

/-- `base64.b64encode(s.encode()).decode()`: the base64 string of a string's
UTF-8 bytes. -/
def b64encode (s : String) : String :=
  ⟨b64encodeBytes (strUtf8 s)⟩

end Base64Model

section GenerateApiKeysMain
/-!
`main` of scripts/generate-api-keys.py as a whole.
-/

/-- The observable result of one run of generate-api-keys.py: the process
exit status, how many keys `generate_key` produced, the `api_keys` mapping,
the emitted JSON and base64 strings, and whether `.api_keys_generated.txt`
was written. -/
structure GenKeysRun where
  exitStatus : Nat
  keysGenerated : Nat
  apiKeys : List (String × String)
  jsonOutput : Option String
  base64Output : Option String
  wroteFile : Bool
  deriving Repr, DecidableEq

/-- `main` of generate-api-keys.py.  `config` is `none` when opening
services.json raises `FileNotFoundError`, otherwise the list of service ids of
`config.get('services', [])` (a config without the key gives the empty list).
`keys` is the stream of random keys `generate_key` returns.  A missing file
exits 1 before any key is generated; an empty services list likewise; on
success the dict is built, dumped to a single-line JSON string, verified
through the parser (exit 1 before the base64 print and the file write if
verification failed), then the base64 form is printed and the file written,
and the script falls off the end of `main` with status 0. -/
def generate_api_keys_main (config : Option (List String))
    (keys : List String) : GenKeysRun :=
  match config with
  | none =>
    { exitStatus := 1, keysGenerated := 0, apiKeys := [],
      jsonOutput := none, base64Output := none, wroteFile := false }
  | some services =>
    if services.isEmpty then
      { exitStatus := 1, keysGenerated := 0, apiKeys := [],
        jsonOutput := none, base64Output := none, wroteFile := false }
    else
      let apiKeys := build_api_keys services keys
      let js := json_dumps apiKeys
      if (json_loads js).isSome then
        { exitStatus := 0, keysGenerated := services.length, apiKeys := apiKeys,
          jsonOutput := some js, base64Output := some (b64encode js),
          wroteFile := true }
      else
        { exitStatus := 1, keysGenerated := services.length, apiKeys := apiKeys,
          jsonOutput := some js, base64Output := none, wroteFile := false }

end GenerateApiKeysMain

section PlainStrings
/-!
The character set the round-trip statements restrict to: printable ASCII
without the two characters `json.dumps` escapes.  Service ids in practice and
the keys `openssl rand -base64 32` produces (base64 alphabet plus `=`) all lie
in this set.
-/

/-- A character `json.dumps` emits unescaped: printable ASCII that is neither
the quote nor the backslash. -/
def plainChar (c : Char) : Bool :=
  0x20 ≤ c.toNat && c.toNat ≤ 0x7e && c != '\x22' && c != '\\'

/-- A string of plain characters. -/
def plainStr (s : String) : Bool :=
  s.data.all plainChar

end PlainStrings

/-- C1: in shared-key mode the batch heartbeat request's body is
`\x7b"services": [serviceId, ...]\x7d` (plain id strings) and the headers
carry `Authorization: Bearer <shared key>`; in per-service-key mode the body
is `\x7b"services": [\x7bserviceId, token\x7d, ...]\x7d` and no header named
Authorization is sent.  This covers both copies of the client (the two files
are identical here) at every configuration of the module constants. -/
theorem claim_c1_batch_request_modes (apiKey : String) (ids : List String)
    (svc : List (String × String)) :
    ((send_heartbeat_batch_request true apiKey ids svc).payload.lookup
        "services" = some (.arr (ids.map .str))) ∧
    (("Authorization", "Bearer " ++ apiKey)
        ∈ (send_heartbeat_batch_request true apiKey ids svc).headers) ∧
    ((send_heartbeat_batch_request false apiKey ids svc).payload.lookup
        "services" = some (.arr (svc.map fun p =>
          .obj [("serviceId", .str p.1), ("token", .str p.2)]))) ∧
    (∀ h ∈ (send_heartbeat_batch_request false apiKey ids svc).headers,
        h.1 ≠ "Authorization") := by
  refine ⟨rfl, ?_, rfl, ?_⟩
  · simp [send_heartbeat_batch_request]
  · intro h hmem
    simp [send_heartbeat_batch_request] at hmem
    simp [hmem]

/-- C2: the single-service client exits 0 exactly on a 200 response and the
batch client exits 0 exactly on a 200 or 207 response; both exit statuses are
always 0 or 1 (a network error never escapes as an exception); on a 207
response the batch client prints one line per entry of `results`, carrying the
serviceId, and for a failed entry the error reason. -/
theorem claim_c2_client_exit_statuses (o : HttpOutcome) :
    (send_heartbeat_single_exit o = 0 ↔ ∃ b, o = .response 200 b) ∧
    (send_heartbeat_single_exit o = 0 ∨ send_heartbeat_single_exit o = 1) ∧
    ((send_heartbeat_batch_run o).1 = 0 ↔
        ∃ b, o = .response 200 b ∨ o = .response 207 b) ∧
    ((send_heartbeat_batch_run o).1 = 0 ∨ (send_heartbeat_batch_run o).1 = 1) ∧
    (∀ b, o = .response 207 b → ∀ i : Nat,
        (send_heartbeat_batch_run o).2[i]? = ((b.results.getD [])[i]?).map
          fun r => if r.success then BatchPrint.line207ok r.serviceId
                   else BatchPrint.line207fail r.serviceId r.error) := by
  cases o with
  | requestError =>
    simp [send_heartbeat_single_exit, send_heartbeat_batch_run]
  | response s b =>
    by_cases h200 : s = 200
    · subst h200
      simp [send_heartbeat_single_exit, send_heartbeat_batch_run]
    · by_cases h207 : s = 207
      · subst h207
        simp [send_heartbeat_single_exit, send_heartbeat_batch_run]
      · simp [send_heartbeat_single_exit, send_heartbeat_batch_run, h200, h207]

/-- C2 witness: at a concrete 207 partial-success response the batch client
exits 0 and reports the failed item's serviceId with its error reason, while
the single client treats a request error as exit 1. -/
theorem claim_c2_witness :
    (send_heartbeat_batch_run (.response 207
        ⟨some "m", some [⟨"a", true, none⟩, ⟨"b", false, some "bad"⟩]⟩)).1 = 0 ∧
    (send_heartbeat_batch_run (.response 207
        ⟨some "m", some [⟨"a", true, none⟩, ⟨"b", false, some "bad"⟩]⟩)).2[1]?
      = some (.line207fail "b" (some "bad")) ∧
    send_heartbeat_single_exit .requestError = 1 := by
  have h := claim_c2_client_exit_statuses (.response 207
    ⟨some "m", some [⟨"a", true, none⟩, ⟨"b", false, some "bad"⟩]⟩)
  have h1 := h.2.2.1.mpr ⟨_, Or.inr rfl⟩
  have h2 := h.2.2.2.2 _ rfl 1
  have h3 := (claim_c2_client_exit_statuses .requestError).2.1
  refine ⟨h1, by simpa using h2, ?_⟩
  rcases h3 with h3 | h3
  · exact absurd ((claim_c2_client_exit_statuses .requestError).1.mp h3)
      (by rintro ⟨b, h⟩; cases h)
  · exact h3

/-- C3 counterexample: the claim says no heartbeat client supplies a `status`
field, but the payload built by `send_heartbeat` of
examples/heartbeat-client.py carries `status: "up"` at every input. -/
theorem claim_c3_counterexample :
    (examples_send_heartbeat_payload "service-1" "myhost"
        "2025-11-06T10:30:00Z").hasKey "status" = true ∧
    (examples_send_heartbeat_payload "service-1" "myhost"
        "2025-11-06T10:30:00Z").lookup "status" = some (.str "up") := by
  exact ⟨rfl, rfl⟩

/-- C3 amended: the heartbeat clients under heartbeat-clients/ and slim/agent/
build bodies from the HeartbeatRecord input fields only and never supply a
`status` field (single requests carry exactly `serviceId`, batch requests
exactly `services`); the examples/ client, however, additionally supplies
`status: "up"` beside serviceId, metadata and message. -/
theorem claim_c3_amended_payload_fields (serviceId apiKey hostname timestamp :
    String) (shared : Bool) (ids : List String) (svc : List (String × String)) :
    (send_heartbeat_single_request serviceId apiKey).payload.keys
        = ["serviceId"] ∧
    (send_heartbeat_single_request serviceId apiKey).payload.hasKey "status"
        = false ∧
    (send_heartbeat_batch_request shared apiKey ids svc).payload.keys
        = ["services"] ∧
    (send_heartbeat_batch_request shared apiKey ids svc).payload.hasKey
        "status" = false ∧
    (examples_send_heartbeat_payload serviceId hostname timestamp).keys
        = ["serviceId", "status", "metadata", "message"] ∧
    (examples_send_heartbeat_payload serviceId hostname timestamp).lookup
        "status" = some (.str "up") := by
  cases shared <;>
    exact ⟨rfl, rfl, rfl, rfl, rfl, rfl⟩

/-- C4: the Alertmanager firing payload of the test harness has exactly one
element in `alerts`, with status "firing", `labels.alertname = "HighCPU"` and
`labels.severity = "warning"`; normalized (normalizer modelled from the spec),
it yields exactly one canonical Alert with title "HighCPU", severity warning
and source "alertmanager". -/
theorem claim_c4_alertmanager_firing :
    ((alertmanagerFiringPayload.lookup "alerts").map
        (fun a => a.elems.length) = some 1) ∧
    (((alertmanagerFiringPayload.lookup "alerts").getD (.arr [])).elems.map
        (fun a => (a.lookup "status",
                   ((a.lookup "labels").getD (.obj [])).lookup "alertname",
                   ((a.lookup "labels").getD (.obj [])).lookup "severity"))
      = [(some (.str "firing"), some (.str "HighCPU"),
          some (.str "warning"))]) ∧
    ((normalizeAlertmanager alertmanagerFiringPayload).map
        (fun a => (a.title, a.severity, a.source))
      = [("HighCPU", Severity.warning, "alertmanager")]) := by
  exact ⟨rfl, rfl, rfl⟩

/-- C5: the alert test client sends an Authorization header exactly when an
API key was supplied on the command line (`sys.argv` longer than two, the key
itself nonempty — Python truthiness makes an empty supplied key behave as
none); with no key the headers are exactly Content-Type, with a key the
header `Authorization: Bearer <key>` is present. -/
theorem claim_c5_alert_auth_header (argv : List String)
    (h : ∀ k, argv.get? 2 = some k → k ≠ "") :
    (((send_alert_headers (alert_api_key argv)).any
        (fun p => p.1 == "Authorization")) = true ↔ 2 < argv.length) ∧
    (argv.length ≤ 2 →
      send_alert_headers (alert_api_key argv)
        = [("Content-Type", "application/json")]) ∧
    (∀ k, argv.get? 2 = some k →
      ("Authorization", "Bearer " ++ k)
        ∈ send_alert_headers (alert_api_key argv)) := by
  by_cases hlen : 2 < argv.length
  · obtain ⟨k, hk⟩ : ∃ k, argv.get? 2 = some k := by
      rw [List.get?_eq_getElem?]
      exact ⟨argv[2], List.getElem?_eq_getElem hlen⟩
    have hne := h k hk
    have hak : alert_api_key argv = some k := by
      unfold alert_api_key
      rw [if_pos hlen, hk]
    have htr : pyTruthy (alert_api_key argv) = true := by
      rw [hak]
      simp [pyTruthy, hne]
    refine ⟨?_, ?_, ?_⟩
    · simp [send_alert_headers, htr, hlen]
    · intro hle
      omega
    · intro k2 hk2
      have hkk : k2 = k := by
        rw [hk] at hk2
        exact (Option.some.inj hk2).symm
      subst hkk
      rw [hak] at htr
      rw [hak]
      simp [send_alert_headers, htr]
  · have hnone : alert_api_key argv = none := by
      unfold alert_api_key
      rw [if_neg hlen]
    refine ⟨?_, ?_, ?_⟩
    · rw [hnone]
      simp [send_alert_headers, pyTruthy, hlen]
    · intro
      rw [hnone]
      simp [send_alert_headers, pyTruthy]
    · intro k hk
      exfalso
      apply hlen
      rw [List.get?_eq_getElem?] at hk
      obtain ⟨hlt, -⟩ := List.getElem?_eq_some_iff.mp hk
      exact hlt

/-- C5 witness: with a concrete three-element argv the Authorization header is
present, and with a one-element argv the headers are Content-Type only. -/
theorem claim_c5_witness :
    (((send_alert_headers (alert_api_key ["prog", "url", "my-key"])).any
        (fun p => p.1 == "Authorization")) = true) ∧
    send_alert_headers (alert_api_key ["prog"])
      = [("Content-Type", "application/json")] := by
  have h1 := claim_c5_alert_auth_header ["prog", "url", "my-key"]
    (by intro k hk; simp at hk; subst hk; decide)
  have h2 := claim_c5_alert_auth_header ["prog"]
    (by intro k hk; simp at hk)
  exact ⟨h1.1.mpr (by decide), h2.2.1 (by decide)⟩

/-- C6: the test-notification client posts exactly
`\x7bchannelType, eventType\x7d` and exits 0 exactly on a 200 response whose
JSON body has a truthy `success`; every other response, a timeout, a
connection error and a non-JSON body give exit 1, with no exception escaping
(every outcome is mapped to an exit status of 0 or 1). -/
theorem claim_c6_test_notification (channelType eventType : String)
    (o : NotificationOutcome) :
    ((test_notification_payload channelType eventType).keys
        = ["channelType", "eventType"]) ∧
    ((test_notification_payload channelType eventType).lookup "channelType"
        = some (.str channelType)) ∧
    ((test_notification_payload channelType eventType).lookup "eventType"
        = some (.str eventType)) ∧
    (test_notification_exit o = 0 ↔
        ∃ d, o = .response 200 (some d) ∧ d.success = true) ∧
    (test_notification_exit o = 0 ∨ test_notification_exit o = 1) := by
  refine ⟨rfl, rfl, rfl, ?_, ?_⟩
  · cases o with
    | timeoutError => simp [test_notification_exit]
    | connectionError => simp [test_notification_exit]
    | response s body =>
      cases body with
      | none => simp [test_notification_exit]
      | some d =>
        by_cases h200 : s = 200
        · subst h200
          by_cases hs : d.success
          · simp [test_notification_exit, hs]
          · simp [test_notification_exit, hs]
        · simp [test_notification_exit, h200]
  · cases o with
    | timeoutError => simp [test_notification_exit]
    | connectionError => simp [test_notification_exit]
    | response s body =>
      cases body with
      | none => simp [test_notification_exit]
      | some d =>
        by_cases hc : (s == 200 && d.success) = true
        · simp [test_notification_exit, hc]
        · simp [test_notification_exit, hc]

/-- C9: the alert test harness runs all nine test posts whatever each post's
outcome is — `send_alert` never lets an exception escape, so the sequencing in
`main` never aborts — and the process exits with status 0, even when every
post failed. -/
theorem claim_c9_harness_runs_all_tests (outcomes : Nat → AlertOutcome) :
    alertHarnessTests.length = 9 ∧
    ∃ reports, alert_harness_main outcomes = .ok (reports, 0) ∧
      reports.length = 9 := by
  refine ⟨rfl, ?_⟩
  have key : ∀ l : List Nat, ∃ rs : List SendAlertReport,
      (l.mapM fun i => send_alert (outcomes i)) = .ok rs ∧
        rs.length = l.length := by
    intro l
    induction l with
    | nil => exact ⟨[], rfl, rfl⟩
    | cons a tl ih =>
      obtain ⟨rs, hrs, hlen⟩ := ih
      obtain ⟨r, hr⟩ : ∃ r, send_alert (outcomes a) = .ok r := by
        cases ho : outcomes a with
        | requestError => exact ⟨_, rfl⟩
        | response s body =>
          cases body with
          | none => exact ⟨_, rfl⟩
          | some b =>
            refine ⟨if s == 200 then .success b else .failedStatus s b, ?_⟩
            simp only [send_alert]
            split <;> simp_all
      refine ⟨r :: rs, ?_, by simp [hlen]⟩
      rw [List.mapM_cons, hr, hrs]
      rfl
  obtain ⟨rs, hmap, hlen⟩ := key (List.range alertHarnessTests.length)
  refine ⟨rs, ?_, by simpa using hlen⟩
  simp only [alert_harness_main, bind, Except.bind, hmap]
  rfl

/-- C10: with services.json missing (config none) or an empty services list,
generate-api-keys.py exits with status 1 having generated no key, written no
output file and produced no JSON or base64 output. -/
theorem claim_c10_no_services_error_path (config : Option (List String))
    (keys : List String) (h : config = none ∨ config = some []) :
    (generate_api_keys_main config keys).exitStatus = 1 ∧
    (generate_api_keys_main config keys).keysGenerated = 0 ∧
    (generate_api_keys_main config keys).apiKeys = [] ∧
    (generate_api_keys_main config keys).jsonOutput = none ∧
    (generate_api_keys_main config keys).base64Output = none ∧
    (generate_api_keys_main config keys).wroteFile = false := by
  rcases h with h | h <;> subst h <;>
    exact ⟨rfl, rfl, rfl, rfl, rfl, rfl⟩

/-- C10 witness: the missing-file run at a concrete key stream. -/
theorem claim_c10_witness :
    (generate_api_keys_main none ["k1"]).exitStatus = 1 ∧
    (generate_api_keys_main none ["k1"]).wroteFile = false := by
  have h := claim_c10_no_services_error_path none ["k1"] (Or.inl rfl)
  exact ⟨h.1, h.2.2.2.2.2⟩

/-- Updating a dict key keeps the key list; a fresh key is appended. -/
theorem dictInsert_map_fst (d : List (String × String)) (k v : String) :
    (dictInsert d k v).map Prod.fst =
      if k ∈ d.map Prod.fst then d.map Prod.fst
      else d.map Prod.fst ++ [k] := by
  unfold dictInsert
  by_cases h : d.any (fun kv => kv.1 == k) = true
  · rw [if_pos h, if_pos ?_]
    · rw [List.map_map]
      apply List.map_congr_left
      intro kv _
      dsimp
      split <;> rfl
    · rw [List.any_eq_true] at h
      obtain ⟨kv, hmem, hk⟩ := h
      rw [List.mem_map]
      exact ⟨kv, hmem, by simpa using hk⟩
  · rw [if_neg h, if_neg ?_]
    · simp
    · intro hmem
      apply h
      rw [List.mem_map] at hmem
      obtain ⟨kv, hkv, hfst⟩ := hmem
      rw [List.any_eq_true]
      exact ⟨kv, hkv, by simp [hfst]⟩

/-- Key membership after a dict update. -/
theorem dictInsert_mem_fst (d : List (String × String)) (k v x : String) :
    x ∈ (dictInsert d k v).map Prod.fst ↔ x ∈ d.map Prod.fst ∨ x = k := by
  rw [dictInsert_map_fst]
  by_cases h : k ∈ d.map Prod.fst
  · rw [if_pos h]
    constructor
    · exact Or.inl
    · rintro (h1 | rfl)
      exacts [h1, h]
  · rw [if_neg h]
    simp

/-- A dict update preserves distinctness of the keys. -/
theorem dictInsert_nodup (d : List (String × String)) (k v : String)
    (h : (d.map Prod.fst).Nodup) :
    ((dictInsert d k v).map Prod.fst).Nodup := by
  rw [dictInsert_map_fst]
  by_cases hk : k ∈ d.map Prod.fst
  · rw [if_pos hk]
    exact h
  · rw [if_neg hk]
    rw [List.nodup_append]
    refine ⟨h, List.nodup_singleton k, ?_⟩
    intro x hx
    simp only [List.mem_singleton]
    intro hxk
    exact hk (hxk ▸ hx)

/-- An entry of an updated dict carries the new value or was already there. -/
theorem dictInsert_mem_entry (d : List (String × String)) (k v : String)
    (kv : String × String) (hkv : kv ∈ dictInsert d k v) :
    kv.2 = v ∨ kv ∈ d := by
  unfold dictInsert at hkv
  by_cases h : d.any (fun x => x.1 == k) = true
  · rw [if_pos h, List.mem_map] at hkv
    obtain ⟨kv0, hkv0, heq⟩ := hkv
    by_cases he : (kv0.1 == k) = true
    · rw [if_pos he] at heq
      subst heq
      exact Or.inl rfl
    · rw [if_neg he] at heq
      subst heq
      exact Or.inr hkv0
  · rw [if_neg h, List.mem_append] at hkv
    rcases hkv with h1 | h1
    · exact Or.inr h1
    · rw [List.mem_singleton] at h1
      subst h1
      exact Or.inl rfl

/-- Keys of the dict built by folding updates: distinct whenever they start
distinct. -/
theorem foldl_dictInsert_nodup (pairs : List (String × String)) :
    ∀ d : List (String × String), (d.map Prod.fst).Nodup →
      (((pairs.foldl (fun acc p => dictInsert acc p.1 p.2) d)).map
        Prod.fst).Nodup := by
  induction pairs with
  | nil => exact fun d h => h
  | cons p tl ih =>
    intro d h
    rw [List.foldl_cons]
    exact ih _ (dictInsert_nodup d p.1 p.2 h)

/-- Key membership in the folded dict. -/
theorem foldl_dictInsert_mem_fst (pairs : List (String × String)) :
    ∀ (d : List (String × String)) (x : String),
      x ∈ ((pairs.foldl (fun acc p => dictInsert acc p.1 p.2) d)).map Prod.fst
        ↔ x ∈ d.map Prod.fst ∨ x ∈ pairs.map Prod.fst := by
  induction pairs with
  | nil => simp
  | cons p tl ih =>
    intro d x
    rw [List.foldl_cons, ih, dictInsert_mem_fst]
    simp only [List.map_cons, List.mem_cons]
    tauto

/-- Every value of the folded dict is an initial value or one of the folded
values. -/
theorem foldl_dictInsert_mem_entry (pairs : List (String × String)) :
    ∀ (d : List (String × String)) (kv : String × String),
      kv ∈ pairs.foldl (fun acc p => dictInsert acc p.1 p.2) d →
        kv ∈ d ∨ kv.2 ∈ pairs.map Prod.snd := by
  induction pairs with
  | nil => exact fun d kv h => Or.inl h
  | cons p tl ih =>
    intro d kv h
    rw [List.foldl_cons] at h
    rcases ih _ kv h with h1 | h1
    · rcases dictInsert_mem_entry d p.1 p.2 kv h1 with h2 | h2
      · exact Or.inr (by simp [h2])
      · exact Or.inl h2
    · exact Or.inr (by simp [h1])

/-- A plain character is not the quote. -/
theorem plainChar_ne_quote {c : Char} (h : plainChar c = true) :
    (c == '\x22') = false := by
  simp only [plainChar, Bool.and_eq_true, bne_iff_ne, ne_eq] at h
  exact beq_eq_false_iff_ne.mpr h.1.2

/-- A plain character is not the backslash. -/
theorem plainChar_ne_backslash {c : Char} (h : plainChar c = true) :
    (c == '\\') = false := by
  simp only [plainChar, Bool.and_eq_true, bne_iff_ne, ne_eq] at h
  exact beq_eq_false_iff_ne.mpr h.2

/-- Plain characters are emitted unescaped by `json.dumps`. -/
theorem jsonEscapeChar_plain {c : Char} (h : plainChar c = true) :
    jsonEscapeChar c = [c] := by
  have hq := plainChar_ne_quote h
  have hb := plainChar_ne_backslash h
  simp only [plainChar, Bool.and_eq_true, bne_iff_ne, ne_eq,
    decide_eq_true_eq] at h
  obtain ⟨⟨⟨h1, h2⟩, -⟩, -⟩ := h
  have e3 : (c == '\x08') = false := by
    apply beq_eq_false_iff_ne.mpr
    intro e
    subst e
    exact absurd h1 (by decide)
  have e4 : (c == '\x09') = false := by
    apply beq_eq_false_iff_ne.mpr
    intro e
    subst e
    exact absurd h1 (by decide)
  have e5 : (c == '\x0a') = false := by
    apply beq_eq_false_iff_ne.mpr
    intro e
    subst e
    exact absurd h1 (by decide)
  have e6 : (c == '\x0c') = false := by
    apply beq_eq_false_iff_ne.mpr
    intro e
    subst e
    exact absurd h1 (by decide)
  have e7 : (c == '\x0d') = false := by
    apply beq_eq_false_iff_ne.mpr
    intro e
    subst e
    exact absurd h1 (by decide)
  have e8 : (c.toNat < 0x20 || c.toNat > 0x7e) = false := by
    simp only [Bool.or_eq_false_iff, decide_eq_false_iff_not, not_lt]
    exact ⟨h1, by omega⟩
  simp [jsonEscapeChar, hq, hb, e3, e4, e5, e6, e7, e8]

/-- Escaping a list of plain characters is the identity. -/
theorem flatten_escape_plain (l : List Char)
    (h : ∀ c ∈ l, plainChar c = true) :
    (l.map jsonEscapeChar).flatten = l := by
  induction l with
  | nil => rfl
  | cons c tl ih =>
    simp only [List.map_cons, List.flatten_cons,
      jsonEscapeChar_plain (h c (by simp)),
      ih (fun x hx => h x (by simp [hx]))]
    rfl

/-- The quoted form of a plain string is just the string between quotes. -/
theorem jsonQuote_plain {s : String} (h : plainStr s = true) :
    jsonQuote s = '\x22' :: (s.data ++ ['\x22']) := by
  unfold jsonQuote
  rw [flatten_escape_plain s.data (List.all_eq_true.mp h)]
  simp

/-- The string-body parser undoes quoting of a plain string and leaves the
suffix intact. -/
theorem parseStrBody_append (l rest : List Char)
    (h : ∀ c ∈ l, plainChar c = true) :
    parseStrBody (l ++ '\x22' :: rest) = some (l, rest) := by
  induction l with
  | nil =>
    rw [List.nil_append, parseStrBody.eq_def]
    simp
  | cons c tl ih =>
    have hc := h c (by simp)
    have hq := plainChar_ne_quote hc
    have hb := plainChar_ne_backslash hc
    have ih2 := ih (fun x hx => h x (by simp [hx]))
    rw [List.cons_append, parseStrBody.eq_def]
    simp [hq, hb, ih2]

theorem parseMembers_dumpsMembers (d : List (String × String))
    (hplain : ∀ kv ∈ d, plainStr kv.1 = true ∧ plainStr kv.2 = true) :
    ∀ fuel, d.length ≤ fuel → d ≠ [] →
      parseMembers fuel (dumpsMembers d ++ ['\x7d']) = some d := by
  induction d with
  | nil =>
    intro fuel _ hne
    exact absurd rfl hne
  | cons kv tl ih =>
    obtain ⟨k, v⟩ := kv
    intro fuel hfuel _
    have hk := (hplain (k, v) (by simp)).1
    have hv := (hplain (k, v) (by simp)).2
    have hkc : ∀ c ∈ k.data, plainChar c = true := List.all_eq_true.mp hk
    have hvc : ∀ c ∈ v.data, plainChar c = true := List.all_eq_true.mp hv
    cases fuel with
    | zero => simp at hfuel
    | succ fuel =>
      cases tl with
      | nil =>
        have harr : dumpsMembers [(k, v)] ++ ['\x7d'] =
            '\x22' :: (k.data ++ '\x22' :: ':' :: '\x22' ::
              (v.data ++ '\x22' :: ['\x7d'])) := by
          simp [dumpsMembers, jsonQuote_plain hk, jsonQuote_plain hv]
        rw [harr, parseMembers.eq_def]
        simp only [parseStrBody_append _ _ hkc, Option.bind_eq_bind,
          Option.some_bind]
        rw [parseStrBody_append _ _ hvc]
        simp
      | cons kv2 tl2 =>
        have harr : dumpsMembers ((k, v) :: kv2 :: tl2) ++ ['\x7d'] =
            '\x22' :: (k.data ++ '\x22' :: ':' :: '\x22' ::
              (v.data ++ '\x22' :: ',' ::
                (dumpsMembers (kv2 :: tl2) ++ ['\x7d']))) := by
          simp [dumpsMembers, jsonQuote_plain hk, jsonQuote_plain hv]
        have ihtl := ih (fun x hx => hplain x (by simp [hx])) fuel
          (by simp at hfuel ⊢; omega) (by simp)
        rw [harr, parseMembers.eq_def]
        simp only [parseStrBody_append _ _ hkc, Option.bind_eq_bind,
          Option.some_bind]
        rw [parseStrBody_append _ _ hvc]
        simp [ihtl]

theorem dumpsMembers_length_ge (d : List (String × String)) :
    d.length ≤ (dumpsMembers d).length := by
  induction d with
  | nil => simp [dumpsMembers]
  | cons kv tl ih =>
    obtain ⟨k, v⟩ := kv
    cases tl with
    | nil =>
      simp [dumpsMembers, jsonQuote]
    | cons kv2 tl2 =>
      simp only [dumpsMembers, jsonQuote, List.length_append,
        List.length_cons] at ih ⊢
      omega

theorem json_loads_dumps (d : List (String × String))
    (hplain : ∀ kv ∈ d, plainStr kv.1 = true ∧ plainStr kv.2 = true) :
    json_loads (json_dumps d) = some d := by
  cases d with
  | nil => rfl
  | cons kv tl =>
    obtain ⟨k, v⟩ := kv
    obtain ⟨r, hr⟩ : ∃ r, dumpsMembers ((k, v) :: tl) = '\x22' :: r := by
      cases tl with
      | nil => exact ⟨_, rfl⟩
      | cons kv2 tl2 => exact ⟨_, rfl⟩
    have hfuel : ((k, v) :: tl).length ≤ (json_dumps ((k, v) :: tl)).length := by
      have h1 := dumpsMembers_length_ge ((k, v) :: tl)
      have h2 : (json_dumps ((k, v) :: tl)).length
          = (dumpsMembers ((k, v) :: tl)).length + 2 := by
        simp [json_dumps, String.length]
      omega
    have hne : ((k, v) :: tl) ≠ ([] : List (String × String)) := by simp
    have hparse := parseMembers_dumpsMembers ((k, v) :: tl) hplain
      (json_dumps ((k, v) :: tl)).length hfuel hne
    unfold json_loads
    show (match ('\x7b' :: (dumpsMembers ((k, v) :: tl) ++ ['\x7d'])) with
      | ['\x7b', '\x7d'] => some []
      | '\x7b' :: rest => parseMembers (json_dumps ((k, v) :: tl)).length rest
      | _ => none) = some ((k, v) :: tl)
    rw [hr, List.cons_append]
    show parseMembers (json_dumps ((k, v) :: tl)).length
      ('\x22' :: (r ++ ['\x7d'])) = some ((k, v) :: tl)
    rw [← List.cons_append, ← hr]
    exact hparse

theorem b64val_b64chr : ∀ n, n < 64 → b64val (b64chr n) = n := by decide

theorem b64chr_ne_pad : ∀ n, n < 64 → (b64chr n == '=') = false := by decide

theorem b64_decode_encode (bs : List Nat) (h : ∀ b ∈ bs, b < 256) :
    b64decodeChars (b64encodeBytes bs) = some bs := by
  induction bs using b64encodeBytes.induct with
  | case1 => rfl
  | case2 a =>
    have ha : a < 256 := h a (by simp)
    have h1 : a / 4 < 64 := by omega
    have h2 : a % 4 * 16 < 64 := by omega
    rw [b64encodeBytes]
    simp [b64decodeChars, b64val_b64chr _ h1, b64val_b64chr _ h2, h1, h2]
    omega
  | case3 a b =>
    have ha : a < 256 := h a (by simp)
    have hb : b < 256 := h b (by simp)
    have h1 : a / 4 < 64 := by omega
    have h2 : a % 4 * 16 + b / 16 < 64 := by omega
    have h3 : b % 16 * 4 < 64 := by omega
    rw [b64encodeBytes]
    simp [b64decodeChars, b64val_b64chr _ h1, b64val_b64chr _ h2,
      b64val_b64chr _ h3, b64chr_ne_pad _ h3, h1, h2, h3]
    constructor
    · omega
    · omega
  | case4 a b c rest ih =>
    have ha : a < 256 := h a (by simp)
    have hb : b < 256 := h b (by simp)
    have hc : c < 256 := h c (by simp)
    have ih2 := ih (fun x hx => h x (by simp [hx]))
    have h1 : a / 4 < 64 := by omega
    have h2 : a % 4 * 16 + b / 16 < 64 := by omega
    have h3 : b % 16 * 4 + c / 64 < 64 := by omega
    have h4 : c % 64 < 64 := by omega
    rw [b64encodeBytes]
    simp [b64decodeChars, b64val_b64chr _ h1, b64val_b64chr _ h2,
      b64val_b64chr _ h3, b64val_b64chr _ h4, b64chr_ne_pad _ h3,
      b64chr_ne_pad _ h4, h1, h2, h3, h4, ih2]
    refine ⟨by omega, by omega, by omega⟩

theorem utf8Bytes_ascii {c : Char} (h : c.toNat < 128) :
    utf8Bytes c = [c.toNat] := by
  simp [utf8Bytes, h]

theorem flatten_utf8_ascii (l : List Char) (h : ∀ c ∈ l, c.toNat < 128) :
    (l.map utf8Bytes).flatten = l.map Char.toNat := by
  induction l with
  | nil => rfl
  | cons c tl ih =>
    simp only [List.map_cons, List.flatten_cons,
      utf8Bytes_ascii (h c (by simp)),
      ih (fun x hx => h x (by simp [hx]))]
    rfl

theorem strUtf8_ascii {s : String} (h : ∀ c ∈ s.data, c.toNat < 128) :
    strUtf8 s = s.data.map Char.toNat := by
  unfold strUtf8
  exact flatten_utf8_ascii s.data h

theorem strUtf8_ascii_lt {s : String} (h : ∀ c ∈ s.data, c.toNat < 128) :
    ∀ b ∈ strUtf8 s, b < 256 := by
  rw [strUtf8_ascii h]
  intro b hb
  rw [List.mem_map] at hb
  obtain ⟨c, hc, rfl⟩ := hb
  have := h c hc
  omega

theorem asciiDecode_strUtf8 {s : String} (h : ∀ c ∈ s.data, c.toNat < 128) :
    asciiDecodeBytes (strUtf8 s) = some s := by
  rw [strUtf8_ascii h]
  unfold asciiDecodeBytes
  rw [if_pos]
  · congr 1
    rw [List.map_map]
    have : (Char.ofNat ∘ Char.toNat) = id := by
      funext c
      exact Char.ofNat_toNat c
    rw [this, List.map_id]
  · rw [List.all_eq_true]
    intro b hb
    rw [List.mem_map] at hb
    obtain ⟨c, hc, rfl⟩ := hb
    have := h c hc
    simp
    omega

theorem plainChar_lt {c : Char} (h : plainChar c = true) : c.toNat < 128 := by
  simp only [plainChar, Bool.and_eq_true, decide_eq_true_eq] at h
  omega

theorem jsonQuote_ascii {s : String} (h : plainStr s = true) :
    ∀ c ∈ jsonQuote s, c.toNat < 128 := by
  rw [jsonQuote_plain h]
  intro c hc
  simp only [List.mem_cons, List.mem_append, List.not_mem_nil,
    or_false] at hc
  rcases hc with rfl | hc | rfl
  · decide
  · exact plainChar_lt (List.all_eq_true.mp h c hc)
  · decide

theorem dumpsMembers_ascii (d : List (String × String))
    (hplain : ∀ kv ∈ d, plainStr kv.1 = true ∧ plainStr kv.2 = true) :
    ∀ c ∈ dumpsMembers d, c.toNat < 128 := by
  induction d with
  | nil => simp [dumpsMembers]
  | cons kv tl ih =>
    obtain ⟨k, v⟩ := kv
    have hk := (hplain (k, v) (by simp)).1
    have hv := (hplain (k, v) (by simp)).2
    cases tl with
    | nil =>
      intro c hc
      rw [dumpsMembers] at hc
      simp only [List.mem_append, List.mem_cons, List.not_mem_nil,
        or_false] at hc
      rcases hc with hc | rfl | hc
      · exact jsonQuote_ascii hk c hc
      · decide
      · exact jsonQuote_ascii hv c hc
    | cons kv2 tl2 =>
      intro c hc
      have ih2 := ih (fun x hx => hplain x (by simp [hx]))
      rw [dumpsMembers] at hc
      simp only [List.mem_append, List.mem_cons, List.not_mem_nil,
        or_false] at hc
      rcases hc with (hc | rfl | hc) | (rfl | hc)
      · exact jsonQuote_ascii hk c hc
      · decide
      · exact jsonQuote_ascii hv c hc
      · decide
      · exact ih2 c hc
      · simp

theorem json_dumps_ascii (d : List (String × String))
    (hplain : ∀ kv ∈ d, plainStr kv.1 = true ∧ plainStr kv.2 = true) :
    ∀ c ∈ (json_dumps d).data, c.toNat < 128 := by
  intro c hc
  simp only [json_dumps, List.mem_cons, List.mem_append, List.not_mem_nil,
    or_false] at hc
  rcases hc with rfl | hc | rfl
  · decide
  · exact dumpsMembers_ascii d hplain c hc
  · decide

/-- C7: for a services.json listing a non-empty set of services, the
key-generation utility builds a mapping with exactly one key per service id
(keys of the dict are distinct and are exactly the listed service ids, values
drawn from the generated key stream); parsing the emitted single-line JSON
string recovers exactly that mapping (`json.loads` after `json.dumps`); and
base64-decoding the emitted base64 alternative recovers exactly the UTF-8
bytes of the JSON string, which decode back to it.  Service ids and generated
keys are assumed plain (printable ASCII with no quote or backslash), which
holds for `openssl rand -base64` output. -/
theorem claim_c7_key_generation (services keys : List String)
    (hne : services ≠ []) (hlen : keys.length = services.length)
    (hplain : ∀ s ∈ services ++ keys, plainStr s = true) :
    ((build_api_keys services keys).map Prod.fst).Nodup ∧
    (∀ id, id ∈ (build_api_keys services keys).map Prod.fst ↔
        id ∈ services) ∧
    (∀ kv ∈ build_api_keys services keys, kv.2 ∈ keys) ∧
    ((generate_api_keys_main (some services) keys).apiKeys
        = build_api_keys services keys) ∧
    ((generate_api_keys_main (some services) keys).jsonOutput
        = some (json_dumps (build_api_keys services keys))) ∧
    (json_loads (json_dumps (build_api_keys services keys))
        = some (build_api_keys services keys)) ∧
    ((generate_api_keys_main (some services) keys).base64Output
        = some (b64encode (json_dumps (build_api_keys services keys)))) ∧
    (b64decodeChars
        (b64encode (json_dumps (build_api_keys services keys))).data
      = some (strUtf8 (json_dumps (build_api_keys services keys)))) ∧
    (asciiDecodeBytes (strUtf8 (json_dumps (build_api_keys services keys)))
      = some (json_dumps (build_api_keys services keys))) := by
  have hlez : services.length ≤ keys.length := by omega
  have hlez2 : keys.length ≤ services.length := by omega
  have hfst : (services.zip keys).map Prod.fst = services :=
    List.map_fst_zip services keys hlez
  have hsnd : (services.zip keys).map Prod.snd = keys :=
    List.map_snd_zip services keys hlez2
  have hmem : ∀ kv ∈ build_api_keys services keys,
      kv.1 ∈ services ∧ kv.2 ∈ keys := by
    intro kv hkv
    constructor
    · have h1 : kv.1 ∈ (build_api_keys services keys).map Prod.fst :=
        List.mem_map_of_mem Prod.fst hkv
      unfold build_api_keys at h1
      have h2 := (foldl_dictInsert_mem_fst (services.zip keys) [] kv.1).mp h1
      rcases h2 with h2 | h2
      · simp at h2
      · rwa [hfst] at h2
    · have h2 := foldl_dictInsert_mem_entry (services.zip keys) [] kv hkv
      rcases h2 with h2 | h2
      · simp at h2
      · rwa [hsnd] at h2
  have hplainkv : ∀ kv ∈ build_api_keys services keys,
      plainStr kv.1 = true ∧ plainStr kv.2 = true := by
    intro kv hkv
    exact ⟨hplain _ (List.mem_append_left _ (hmem kv hkv).1),
           hplain _ (List.mem_append_right _ (hmem kv hkv).2)⟩
  have hjson := json_loads_dumps (build_api_keys services keys) hplainkv
  have hascii := json_dumps_ascii (build_api_keys services keys) hplainkv
  have hbytes := strUtf8_ascii_lt hascii
  have hb64 : b64decodeChars
      (b64encode (json_dumps (build_api_keys services keys))).data
      = some (strUtf8 (json_dumps (build_api_keys services keys))) :=
    b64_decode_encode _ hbytes
  have hdecode := asciiDecode_strUtf8 hascii
  have hempty : services.isEmpty = false := by
    cases services with
    | nil => exact absurd rfl hne
    | cons a tl => rfl
  have hrun : generate_api_keys_main (some services) keys =
      { exitStatus := 0, keysGenerated := services.length,
        apiKeys := build_api_keys services keys,
        jsonOutput := some (json_dumps (build_api_keys services keys)),
        base64Output :=
          some (b64encode (json_dumps (build_api_keys services keys))),
        wroteFile := true } := by
    simp only [generate_api_keys_main, hempty, hjson, Option.isSome_some,
      Bool.false_eq_true, if_false, if_true]
  refine ⟨?_, ?_, fun kv hkv => (hmem kv hkv).2, by rw [hrun], by rw [hrun],
    hjson, by rw [hrun], hb64, hdecode⟩
  · unfold build_api_keys
    exact foldl_dictInsert_nodup (services.zip keys) [] (by simp)
  · intro id
    constructor
    · intro hid
      unfold build_api_keys at hid
      have h2 := (foldl_dictInsert_mem_fst (services.zip keys) [] id).mp hid
      rcases h2 with h2 | h2
      · simp at h2
      · rwa [hfst] at h2
    · intro hid
      unfold build_api_keys
      refine (foldl_dictInsert_mem_fst (services.zip keys) [] id).mpr ?_
      refine Or.inr ?_
      rwa [hfst]

/-- C7 witness: both round trips hold at a concrete two-service run with
base64-alphabet keys. -/
theorem claim_c7_witness :
    json_loads (json_dumps (build_api_keys ["service-1", "service-2"]
        ["KEYa+/b0", "KEYc1="]))
      = some (build_api_keys ["service-1", "service-2"]
          ["KEYa+/b0", "KEYc1="]) ∧
    asciiDecodeBytes (strUtf8 (json_dumps (build_api_keys
        ["service-1", "service-2"] ["KEYa+/b0", "KEYc1="])))
      = some (json_dumps (build_api_keys ["service-1", "service-2"]
          ["KEYa+/b0", "KEYc1="])) := by
  have h := claim_c7_key_generation ["service-1", "service-2"]
    ["KEYa+/b0", "KEYc1="] (by decide) (by decide) (by decide)
  exact ⟨h.2.2.2.2.2.1, h.2.2.2.2.2.2.2.2⟩
